import Mathlib

/-!
Verification of the fwx weather-station logger (fwx.c, support.c, fwx.h,
davis.h) against its natural-language specification.

Shallow embedding conventions:
- C float values that the program only ever loads and stores (decoded
  telemetry fields) are modelled as exact rationals; every decoded value
  is a small integer divided by 10, 100 or 1000, which single-precision
  floats represent faithfully enough that all comparisons and printed
  digits in the claims coincide with the rational model.
- The transcendental dewpoint computation (expf/logf) is modelled over
  the real numbers; the real-valued view of the C float union lives in a
  separate field datR of the wxd structure.
- C integers are Int, C unsigned values are Nat; 16-bit raw wire fields
  are Nat in [0, 65535] and the int16_t reinterpretation is explicit.
- The serial line is a script of read results: the i-th wxread call of a
  run returns the i-th chunk (none models a read(2) error returning -1,
  a list shorter than requested models a timeout with partial data).
  Written bytes are accumulated in the state.
-/

/-! ## fwx.h: flags and the wxd / wind / wxdat data model -/

def WXD_VALID : Nat := 0x0010

def WXD_METRIC : Nat := 0x0100

def WXD_ENGLISH : Nat := 0x0200

/-- One measurement slot (struct wxd in fwx.h).  The C union of
float/int/... is modelled by three views: datF is the exact-rational view
used for all decoded telemetry, datI the int view (solar radiation), and
datR the real-number view used only for the computed dewpoint. -/
structure wxd where
  datF : ℚ := 0
  datI : Int := 0
  datR : ℝ := 0
  flags : Nat := 0
  units : String := ""

/-- struct wind from fwx.h. -/
structure wind where
  speed : Int
  direction : Int
deriving DecidableEq, Repr

/-- struct wxdat from fwx.h (the rainhour field is compiled out by
NOTYET in the source and omitted here). -/
structure wxdat where
  time : Int := 0
  windcur : wind := ⟨0, 0⟩
  windavg : wind := ⟨0, 0⟩
  windgust : wind := ⟨0, 0⟩
  barometer : wxd := {}
  windspeed : wxd := {}
  winddir : wxd := {}
  avgwindspeed : wxd := {}
  avgwindspeedinterval : wxd := {}
  indoortemp : wxd := {}
  outdoortemp : wxd := {}
  indoorhum : wxd := {}
  outdoorhum : wxd := {}
  outdoordewpoint : wxd := {}
  rainrate : wxd := {}
  solar : wxd := {}
  rainday : wxd := {}
  rainmonth : wxd := {}
  rainyear : wxd := {}

/-- WXD_ISVALID macro: flags & WXD_VALID, used as a C truth value. -/
def WXD_ISVALID (x : wxd) : Bool := x.flags &&& WXD_VALID != 0

/-- WXD_ISENGLISH macro: flags & WXD_ENGLISH, used as a C truth value. -/
def WXD_ISENGLISH (x : wxd) : Bool := x.flags &&& WXD_ENGLISH != 0

/-! ## wxcalcwindgust (fwx.c lines 430-470): the wind gust tracker -/

/-- The static state of wxcalcwindgust: warr (the circular buffer),
walen (its capacity), waidx (the write cursor) and tenmin (the window
length 10*60/fwxinterval + 1).  The buffer is modelled as a list of
length walen. -/
structure GustState where
  warr : List wind
  walen : Nat
  waidx : Nat
  tenmin : Nat
deriving DecidableEq, Repr

/-- The capacity loop of wxcalcwindgust:
  walen = 1; do { walen <<= 1; } while (i >>= 1);
The first argument is fuel, always called with fuel = i so the fuel
never runs out (each iteration at least halves i). -/
def walenGo : Nat → Nat → Nat → Nat
  | 0, walen, _ => walen * 2
  | fuel + 1, walen, i =>
    let w := walen * 2
    if i / 2 = 0 then w else walenGo fuel w (i / 2)

/-- tenmin = 10 * 60 / fwxinterval + 1 (fwx.c line 445). -/
def tenminOf (fwxinterval : Nat) : Nat := 10 * 60 / fwxinterval + 1

/-- The buffer capacity walen chosen at first use for a given sampling
interval (fwx.c lines 444-449). -/
def capacityOf (fwxinterval : Nat) : Nat :=
  walenGo (tenminOf fwxinterval) 1 (tenminOf fwxinterval)

/-- The state after the successful first-call allocation and memset of
wxcalcwindgust (fwx.c lines 444-455). -/
def initGust (fwxinterval : Nat) : GustState :=
  { warr := List.replicate (capacityOf fwxinterval) ⟨0, 0⟩
    walen := capacityOf fwxinterval
    waidx := 0
    tenmin := tenminOf fwxinterval }

/-- One call of wxcalcwindgust after allocation (fwx.c lines 456-469):
store the new point at waidx, advance waidx modulo walen (via & (walen-1)),
scan the tenmin most recent slots keeping the index of the first strict
maximum.  The local variable found of the C function is only assigned
inside the scan when a speed exceeds the running gust (which starts at
0); an unassigned found is modelled as none, in which case the returned
wind_t pointer of the C code dereferences an indeterminate index. -/
def wxcalcwindgust (st : GustState) (wp : wind) : GustState × Option wind :=
  let warr := st.warr.set st.waidx wp
  let waidx := (st.waidx + 1) &&& (st.walen - 1)
  let f := (waidx + (st.walen - st.tenmin)) &&& (st.walen - 1)
  let scan := (List.range st.tenmin).foldl
    (fun (acc : Int × Option Nat) i =>
      let idx := (f + i) &&& (st.walen - 1)
      if (warr.getD idx ⟨0, 0⟩).speed > acc.1 then
        ((warr.getD idx ⟨0, 0⟩).speed, some idx)
      else acc)
    (0, none)
  ({ st with warr := warr, waidx := waidx },
   scan.2.map (fun i => warr.getD i ⟨0, 0⟩))

/-- The window of slots scanned by a call of wxcalcwindgust, read off the
post-call state, in scan (chronological) order. -/
def windowOf (st : GustState) : List wind :=
  let f := (st.waidx + (st.walen - st.tenmin)) &&& (st.walen - 1)
  (List.range st.tenmin).map (fun i => st.warr.getD ((f + i) &&& (st.walen - 1)) ⟨0, 0⟩)

/-- Spec-side predicate (from the specification text): w is the
observation of maximal speed in l, ties broken by earliest occurrence. -/
def firstMaxProp (l : List wind) (w : wind) : Prop :=
  ∃ i, i < l.length ∧ l.getD i ⟨0, 0⟩ = w ∧
    (∀ j, j < l.length → (l.getD j ⟨0, 0⟩).speed ≤ w.speed) ∧
    (∀ j, j < i → (l.getD j ⟨0, 0⟩).speed < w.speed)

/-- Spec-side least power of two: the claim of C5 says the capacity is
the smallest power of two greater than or equal to tenmin. -/
def isPow2 (m : Nat) : Prop := ∃ k, m = 2 ^ k

/-! ## wxcalcdewpoint (fwx.c lines 379-428) -/

/-- The Sonntag 1990 approximation used by wxcalcdewpoint (fwx.c lines
411-412), over the reals; temp is in Celsius, hum in percent:
  ews = hum * 0.01 * 6.112 * exp((17.62*temp)/(243.12+temp))
  dewpoint = (243.12 * log(ews) - 440.1) / (19.43 - log(ews)). -/
noncomputable def sonntagDewpoint (temp hum : ℝ) : ℝ :=
  let ews := hum * 0.01 * 6.112 * Real.exp ((17.62 * temp) / (243.12 + temp))
  (243.12 * Real.log ews - 440.1) / (19.43 - Real.log ews)

/-- wxcalcdewpoint.  Mirrors the source: bail out unless both outdoor
temperature and humidity are valid; choose the unit branch by testing
the WXD_ENGLISH flag of the HUMIDITY field (this is what line 394 of
fwx.c does); in the English branch convert temp F -> C, apply Sonntag,
convert back; store value, units and flags.  The isnan guard of the
source is modelled as never taken: over total real arithmetic the
computation produces no NaN (for the concrete inputs of the claims the
float computation is finite as well). -/
noncomputable def wxcalcdewpoint (w : wxdat) : wxdat :=
  if !(WXD_ISVALID w.outdoortemp) || !(WXD_ISVALID w.outdoorhum) then w
  else
    let hum : ℚ := w.outdoorhum.datF
    let english : Bool := w.outdoorhum.flags &&& WXD_ENGLISH != 0
    let temp : ℚ := if english then (w.outdoortemp.datF - 32) * 5 / 9 else w.outdoortemp.datF
    let dewpoint : ℝ := sonntagDewpoint (temp : ℝ) (hum : ℝ)
    if english then
      { w with outdoordewpoint :=
        { w.outdoordewpoint with
            datR := dewpoint * 9 / 5 + 32
            units := "deg F"
            flags := WXD_VALID ||| WXD_ENGLISH ||| 1 } }
    else
      { w with outdoordewpoint :=
        { w.outdoordewpoint with
            datR := dewpoint
            units := "deg C"
            flags := WXD_VALID ||| WXD_METRIC ||| 1 } }

/-! ## davis.h / cvtvploop2fwx (fwx.c lines 514-621) -/

/-- The fields of the packed 99-byte vploopdata_t record (davis.h) that
cvtvploop2fwx reads, as raw unsigned wire values: 8-bit fields are in
[0,255], 16-bit fields in [0,65535].  Byte offsets in the packed layout:
sig 0-2, barTrend 3, type 4, nextRecord 5-6, bar 7-8, tempIn 9-10,
humIn 11, tempOut 12-13, windSpeed 14, windSpeed10 15, windDir 16-17,
tempOutExt 18-32, humOut 33, humOutExt 34-40, rainRate 41-42, uv 43,
solarRad 44-45, rainStorm 46-47, rainStormDate 48-49, rainDay 50-51,
rainMonth 52-53, rainYear 54-55, etDay 56-57, etMonth 58-59,
etYear 60-61, soilMoist 62-65, leafWet 66-69, inAlamrs 70,
rainAlarms 71, outAlarms 72-73, tempHumAlarms 74-81,
leafSoilAlarms 82-85, txBatStatus 86, batCounts 87-88,
forecastIcons 89, forecastRule 90, sunrise 91-92, sunset 93-94, nl 95,
ret 96, crc 97-98. -/
structure vploop where
  bar : Nat
  tempIn : Nat
  humIn : Nat
  tempOut : Nat
  windSpeed : Nat
  windSpeed10 : Nat
  windDir : Nat
  humOut : Nat
  rainRate : Nat
  solarRad : Nat
  rainDay : Nat
  rainMonth : Nat
  rainYear : Nat
deriving DecidableEq, Repr

/-- Reinterpretation of a raw 16-bit wire value as int16_t, as happens
when the C code assigns get_d_16(ld->tempIn) to an int. -/
def toInt16 (x : Nat) : Int := if x < 0x8000 then (x : Int) else (x : Int) - 0x10000

def EIGHT_ONES : Nat := 0xff

def SIXTEEN_ONES : Nat := 0xffff

/-- The per-field pattern of cvtvploop2fwx: WXD_SETUNITS runs
unconditionally, WXD_SETDAT / WXD_SETFLAGS only when the legality test
passes. -/
def setWxdF (x : wxd) (u : String) (legal : Bool) (v : ℚ) (fl : Nat) : wxd :=
  if legal then { x with units := u, datF := v, flags := fl }
  else { x with units := u }

/-- cvtvploop2fwx (fwx.c lines 514-621), up to but excluding the final
wxcalcdewpoint call; returns the updated sample and gust-tracker state.
Every assignment of the C function touches a distinct field, so the
sequential statements are rendered as one structure literal in source
order.  The scaled values (float)x/10, /100, /1000 of the source are
the exact rationals mkRat x 10 and so on (mkRat a b = a / b, lemma
Rat.mkRat_eq_div), spelled with mkRat so that proofs can evaluate
them.  Wind gust: when wxcalcwindgust reports an unassigned selection
(C: an indeterminate found index) the windgust field is modelled as
left unchanged, since the bytes the C memcpy would copy are
unspecified. -/
def cvtvploop2fwxRaw (ld : vploop) (w0 : wxdat) (g : GustState) : wxdat × GustState :=
  let windcur : wind :=
    { speed := if ld.windSpeed != EIGHT_ONES then (ld.windSpeed : Int) else w0.windcur.speed
      direction := if ld.windDir ≤ 360 then (ld.windDir : Int) else w0.windcur.direction }
  let windavg : wind :=
    { w0.windavg with
      speed := if ld.windSpeed10 != EIGHT_ONES then (ld.windSpeed10 : Int) else w0.windavg.speed }
  let gr := wxcalcwindgust g windcur
  let stmpIn := toInt16 ld.tempIn
  let stmpOut := toInt16 ld.tempOut
  ({ w0 with
      windcur := windcur
      windavg := windavg
      windgust := match gr.2 with
        | some wg => wg
        | none => w0.windgust
      barometer := setWxdF w0.barometer "in" (ld.bar != SIXTEEN_ONES)
        (mkRat (ld.bar : Int) 1000) (WXD_VALID ||| WXD_ENGLISH ||| 3)
      windspeed := setWxdF w0.windspeed "mph" (ld.windSpeed != EIGHT_ONES)
        (ld.windSpeed : ℚ) (WXD_VALID ||| WXD_ENGLISH ||| 0)
      winddir := setWxdF w0.winddir "deg" (decide (ld.windDir ≤ 360))
        (ld.windDir : ℚ) (WXD_VALID ||| 0)
      avgwindspeed := setWxdF w0.avgwindspeed "mph" (ld.windSpeed10 != EIGHT_ONES)
        (ld.windSpeed10 : ℚ) (WXD_VALID ||| WXD_ENGLISH ||| 0)
      avgwindspeedinterval := setWxdF w0.avgwindspeedinterval "min"
        (ld.windSpeed10 != EIGHT_ONES) 10 (WXD_VALID ||| 0)
      indoortemp := setWxdF w0.indoortemp "deg F"
        (decide (stmpIn ≠ 0x1000 ∧ stmpIn > -1500 ∧ stmpIn < 1500))
        (mkRat stmpIn 10) (WXD_VALID ||| WXD_ENGLISH ||| 1)
      outdoortemp := setWxdF w0.outdoortemp "deg F"
        (decide (stmpOut ≠ 0x1000 ∧ stmpOut > -1500 ∧ stmpOut < 1500))
        (mkRat stmpOut 10) (WXD_VALID ||| WXD_ENGLISH ||| 1)
      indoorhum := setWxdF w0.indoorhum "%"
        (ld.humIn != EIGHT_ONES && ld.humIn ≤ 100)
        (ld.humIn : ℚ) (WXD_VALID ||| 0)
      outdoorhum := setWxdF w0.outdoorhum "%"
        (ld.humOut != EIGHT_ONES && ld.humOut ≤ 100)
        (ld.humOut : ℚ) (WXD_VALID ||| 0)
      rainrate := setWxdF w0.rainrate "in/hr" (ld.rainRate != SIXTEEN_ONES)
        (mkRat (ld.rainRate : Int) 100) (WXD_VALID ||| WXD_ENGLISH ||| 2)
      solar :=
        if ld.solarRad != SIXTEEN_ONES then
          { w0.solar with
              units := "w/m2"
              datI := (ld.solarRad : Int)
              flags := WXD_VALID ||| WXD_METRIC ||| 2 }
        else { w0.solar with units := "w/m2" }
      rainday := setWxdF w0.rainday "in" (ld.rainDay != SIXTEEN_ONES)
        (mkRat (ld.rainDay : Int) 100) (WXD_VALID ||| WXD_ENGLISH ||| 2)
      rainmonth := setWxdF w0.rainmonth "in" (ld.rainMonth != SIXTEEN_ONES)
        (mkRat (ld.rainMonth : Int) 100) (WXD_VALID ||| WXD_ENGLISH ||| 2)
      rainyear := setWxdF w0.rainyear "in" (ld.rainYear != SIXTEEN_ONES)
        (mkRat (ld.rainYear : Int) 100) (WXD_VALID ||| WXD_ENGLISH ||| 2) },
   gr.1)

/-- cvtvploop2fwx including the final wxcalcdewpoint call (fwx.c line
615). -/
noncomputable def cvtvploop2fwx (ld : vploop) (w0 : wxdat) (g : GustState) :
    wxdat × GustState :=
  let r := cvtvploop2fwxRaw ld w0 g
  (wxcalcdewpoint r.1, r.2)

/-! ## wxlog (fwx.c lines 269-377): the CSV log writer -/

def VERSION_MAJ : Nat := 0

def VERSION_MIN : Nat := 5

def digitChar (n : Nat) : Char := Char.ofNat (48 + n % 10)

/-- Decimal digits of a natural number (fuel-based so that kernel
reduction works; fuel is always sufficient since called with fuel = n+1
and the recursion divides by 10). -/
def natStrAux : Nat → Nat → List Char
  | 0, _ => []
  | fuel + 1, n => if n < 10 then [digitChar n] else natStrAux fuel (n / 10) ++ [digitChar (n % 10)]

def natStr (n : Nat) : List Char := natStrAux (n + 1) n

/-- printf %d / %ld rendering of an integer. -/
def intStr (i : Int) : List Char :=
  if i < 0 then '-' :: natStr (-i).toNat else natStr i.toNat

/-- printf "%.Pf" rendering of a rational: round |q|*10^P to the
nearest integer and print sign, integer part, point and P zero-padded
fraction digits (no point when P = 0).  The rounding is computed on
numerator and denominator directly,
  round(|q|*10^P + 1/2) = (|num|*10^P*2 + den) / (2*den),
so that proofs can evaluate it.  The C library rounds the binary
double to nearest; on the values appearing in the claims the roundings
agree (none is a tie or affected by float representation error). -/
def fmtQ (p : Nat) (q : ℚ) : List Char :=
  let sign : List Char := if q.num < 0 then ['-'] else []
  let n : Nat := (q.num.natAbs * 10 ^ p * 2 + q.den) / (2 * q.den)
  if p = 0 then sign ++ natStr n
  else
    let frac := n % 10 ^ p
    let fracStr := natStr frac
    sign ++ natStr (n / 10 ^ p) ++ ['.'] ++
      List.replicate (p - fracStr.length) '0' ++ fracStr

/-- The NUL byte written by the invalid-field branches of wxlog. -/
def nulChar : Char := Char.ofNat 0

/-- One measurement column of the wxlog record: the C code either
appends the formatted value and a comma (sprintf overwrites its own
terminator on the next append), or, for an invalid field, stores a
comma and then a NUL terminator, incrementing the cursor past both, so
later fields are built PAST the terminator and the terminator stays in
the buffer. -/
def wxlogField (valid : Bool) (rendered : List Char) : List Char :=
  if valid then rendered ++ [','] else [',', nulChar]

/-- The buffer contents assembled by wxlog (fwx.c lines 288-368) before
the final fprintf, in source order: version numbers and timestamp, then
barometer %.3f, windspeed %.0f (with winddir %.0f nested under a valid
windspeed; both empty otherwise), avgwindspeed %.0f, indoortemp %.1f,
outdoortemp %.1f, dewpoint %.1f, indoorhum %.0f, outdoorhum %.0f,
rainrate %.2f, rainday %.2f, rainmonth %.2f, rainyear %.2f, solar %d. -/
def wxlogBuf (w : wxdat) : List Char :=
  (natStr VERSION_MAJ ++ [','] ++ natStr VERSION_MIN ++ [','] ++ intStr w.time ++ [','])
  ++ wxlogField (WXD_ISVALID w.barometer) (fmtQ 3 w.barometer.datF)
  ++ (if WXD_ISVALID w.windspeed then
        fmtQ 0 w.windspeed.datF ++ [','] ++
          wxlogField (WXD_ISVALID w.winddir) (fmtQ 0 w.winddir.datF)
      else [',', ',', nulChar])
  ++ wxlogField (WXD_ISVALID w.avgwindspeed) (fmtQ 0 w.avgwindspeed.datF)
  ++ wxlogField (WXD_ISVALID w.indoortemp) (fmtQ 1 w.indoortemp.datF)
  ++ wxlogField (WXD_ISVALID w.outdoortemp) (fmtQ 1 w.outdoortemp.datF)
  ++ wxlogField (WXD_ISVALID w.outdoordewpoint) (fmtQ 1 w.outdoordewpoint.datF)
  ++ wxlogField (WXD_ISVALID w.indoorhum) (fmtQ 0 w.indoorhum.datF)
  ++ wxlogField (WXD_ISVALID w.outdoorhum) (fmtQ 0 w.outdoorhum.datF)
  ++ wxlogField (WXD_ISVALID w.rainrate) (fmtQ 2 w.rainrate.datF)
  ++ wxlogField (WXD_ISVALID w.rainday) (fmtQ 2 w.rainday.datF)
  ++ wxlogField (WXD_ISVALID w.rainmonth) (fmtQ 2 w.rainmonth.datF)
  ++ wxlogField (WXD_ISVALID w.rainyear) (fmtQ 2 w.rainyear.datF)
  ++ wxlogField (WXD_ISVALID w.solar) (intStr w.solar.datI)

/-- The line actually written by wxlog: fprintf(file, "%s\n", str)
prints the buffer only up to the first NUL terminator, then the
newline. -/
def wxlogLine (w : wxdat) : List Char :=
  (wxlogBuf w).takeWhile (fun c => c ≠ nulChar) ++ ['\n']

/-- Spec-side (claim C8): the full fixed-column CSV line, every invalid
measurement an empty string between its commas. -/
def claimCsvLine (w : wxdat) : List Char :=
  (natStr VERSION_MAJ ++ [','] ++ natStr VERSION_MIN ++ [','] ++ intStr w.time ++ [','])
  ++ (if WXD_ISVALID w.barometer then fmtQ 3 w.barometer.datF else []) ++ [',']
  ++ (if WXD_ISVALID w.windspeed then fmtQ 0 w.windspeed.datF else []) ++ [',']
  ++ (if WXD_ISVALID w.windspeed && WXD_ISVALID w.winddir then fmtQ 0 w.winddir.datF else []) ++ [',']
  ++ (if WXD_ISVALID w.avgwindspeed then fmtQ 0 w.avgwindspeed.datF else []) ++ [',']
  ++ (if WXD_ISVALID w.indoortemp then fmtQ 1 w.indoortemp.datF else []) ++ [',']
  ++ (if WXD_ISVALID w.outdoortemp then fmtQ 1 w.outdoortemp.datF else []) ++ [',']
  ++ (if WXD_ISVALID w.outdoordewpoint then fmtQ 1 w.outdoordewpoint.datF else []) ++ [',']
  ++ (if WXD_ISVALID w.indoorhum then fmtQ 0 w.indoorhum.datF else []) ++ [',']
  ++ (if WXD_ISVALID w.outdoorhum then fmtQ 0 w.outdoorhum.datF else []) ++ [',']
  ++ (if WXD_ISVALID w.rainrate then fmtQ 2 w.rainrate.datF else []) ++ [',']
  ++ (if WXD_ISVALID w.rainday then fmtQ 2 w.rainday.datF else []) ++ [',']
  ++ (if WXD_ISVALID w.rainmonth then fmtQ 2 w.rainmonth.datF else []) ++ [',']
  ++ (if WXD_ISVALID w.rainyear then fmtQ 2 w.rainyear.datF else []) ++ [',']
  ++ (if WXD_ISVALID w.solar then intStr w.solar.datI else []) ++ [',']
  ++ ['\n']

/-! ## The device protocol engine (support.c, fwx.c wxgetloop)

The serial transport is modelled as a script: a list of per-wxread-call
results.  Each wxread call of the program consumes the next entry:
none models read(2) failing with -1, some bs models the call returning
the bytes bs (truncated to the requested length; fewer bytes than
requested is a timeout with partial data, an empty exhausted script is
a timeout with no data).  Writes are accumulated verbatim. -/

structure PEState where
  chunks : List (Option (List Nat))
  writes : List (List Nat)
deriving DecidableEq, Repr

def initPE (chunks : List (Option (List Nat))) : PEState :=
  { chunks := chunks, writes := [] }

/-- One wxread call for len bytes: consume the next scripted chunk. -/
def doRead (len : Nat) (st : PEState) : Option (List Nat) × PEState :=
  match st.chunks with
  | [] => (some [], st)
  | c :: rest => (c.map (fun bs => bs.take len), { st with chunks := rest })

def doWrite (bs : List Nat) (st : PEState) : PEState :=
  { st with writes := st.writes ++ [bs] }

/-- The acceptance test of wxwakeup (support.c lines 248-249), exactly
as written in the source:
  if ((resp[0] != CR and resp[1] != LF) and (resp[0] != LF and resp[1] != CR))
    return -1;
so an attempt is rejected iff that parenthesised condition holds. -/
def wakeAccept (r0 r1 : Nat) : Bool :=
  !(((r0 != 13) && (r1 != 10)) && ((r0 != 10) && (r1 != 13)))

/-- wxwakeup (support.c lines 224-259): flush (a transport no-op in
this model), write one newline, read 2 bytes with a 5 second deadline,
apply the acceptance test.  Bytes the read did not deliver are the
uninitialised contents of resp, modelled as 0. -/
def wxwakeupM (st : PEState) : Bool × PEState :=
  let st := doWrite [10] st
  match doRead 2 st with
  | (none, st') => (false, st')
  | (some bs, st') => (wakeAccept (bs.getD 0 0) (bs.getD 1 0), st')

/-- The wake loop of wxgetloop (fwx.c lines 630-637):
  for (i = 0; i < 4; ++i) if (wxwakeup(fd) == 0) break;
Returns whether a wakeup succeeded, the number of attempts made, and
the resulting transport state.  Note the source falls through to the
LOOP command regardless of the outcome. -/
def wakeLoopM : Nat → PEState → Bool × Nat × PEState
  | 0, st => (false, 0, st)
  | n + 1, st =>
    let r := wxwakeupM st
    if r.1 then (true, 1, r.2)
    else
      let rest := wakeLoopM n r.2
      (rest.1, rest.2.1 + 1, rest.2.2)

def ACK : Nat := 0x06

/-- The read loop of wxgetack (support.c lines 261-279):
  i = 0;
  do { read 1 byte; if (i++ >= 5) return -1; } while (byte != ACK);
The fuel argument is 5 - i: at fuel 0 (C: i = 5) one more byte is read
and the function fails regardless of its value.  Returns success, the
number of reads performed, and the state.  A scripted read error
(none) is the wxread failure branch.  A read that delivered no byte
leaves ackbuf with its previous (junk) contents, modelled as 0. -/
def ackGo : Nat → PEState → Bool × Nat × PEState
  | 0, st =>
    let r := doRead 1 st
    (false, 1, r.2)
  | n + 1, st =>
    match doRead 1 st with
    | (none, st') => (false, 1, st')
    | (some bs, st') =>
      if bs.getD 0 0 = ACK then (true, 1, st')
      else
        let rest := ackGo n st'
        (rest.1, rest.2.1 + 1, rest.2.2)

def wxgetackM (st : PEState) : Bool × Nat × PEState := ackGo 5 st

/-- wxcmd (support.c lines 281-305): write the command bytes, then wait
for the ACK. -/
def wxcmdM (cmd : List Nat) (st : PEState) : Bool × PEState :=
  let st := doWrite cmd st
  let r := wxgetackM st
  (r.1, r.2.2)

/-- The bytes of the command string VPLOOPCMD = "LOOP 01\n" (davis.h). -/
def VPLOOPCMD_BYTES : List Nat := [76, 79, 79, 80, 32, 48, 49, 10]

/-! ### wxcrc.

The file crc.c that defines wxcrc is not part of src/.
Modelled from the spec: a CRC-16 (CCITT-style, polynomial and exact
residual matching the Davis-published algorithm), i.e. polynomial
0x1021, initial value 0, most-significant-bit first, no reflection and
no final xor; running a record with its two appended big-endian CRC
bytes through the register leaves residual 0. -/

def crcShift (c : Nat) : Nat :=
  if c &&& 0x8000 ≠ 0 then ((c <<< 1) ^^^ 0x1021) &&& 0xFFFF else (c <<< 1) &&& 0xFFFF

/-- Feed one byte into the CRC register (8 shift steps). -/
def crcStep (c b : Nat) : Nat :=
  crcShift (crcShift (crcShift (crcShift (crcShift (crcShift (crcShift (crcShift
    (c ^^^ ((b &&& 0xFF) <<< 8)))))))))

/-- Modelled from the spec: wxcrc(buf, len) from the missing crc.c runs
len bytes through the CRC-16-CCITT register starting from 0 and returns
the register. -/
def wxcrc (bs : List Nat) : Nat := bs.foldl crcStep 0

/-- The CRC register after feeding bs starting from register value c;
wxcrc bs = crcFold 0 bs.  Used to evaluate the CRC of a long record in
bounded-depth steps. -/
def crcFold (c : Nat) (bs : List Nat) : Nat := bs.foldl crcStep c

/-- wxgetloop (fwx.c lines 623-666) at the byte level.  The oob
argument is the indeterminate stack byte that follows the 99-byte ld
buffer: the source checks
  wxcrc((unsigned char *)&ld + 1, rc)
with rc = 99, so the CRC input starts at the second byte of the record
and extends one byte past its end.  Returns the record bytes when the
engine would go on to decode them (none: no sample is produced this
cycle), together with the transport state. -/
def wxgetloopBytes (oob : Nat) (st : PEState) : Option (List Nat) × PEState :=
  let wk := wakeLoopM 4 st
  let cm := wxcmdM VPLOOPCMD_BYTES wk.2.2
  if !cm.1 then (none, cm.2)
  else
    match doRead 99 cm.2 with
    | (none, st') => (none, st')
    | (some bs, st') =>
      if bs.length ≠ 99 then (none, st')
      else if wxcrc (bs.drop 1 ++ [oob]) ≠ 0 then (none, st')
      else (some bs, st')

/-- Little-endian 16-bit field of a byte list at offset o (the Davis
wire format is little-endian and get_d_16 is the identity on the
supported targets). -/
def le16 (bs : List Nat) (o : Nat) : Nat := bs.getD o 0 + 256 * bs.getD (o + 1) 0

/-- Parse the fields cvtvploop2fwx uses out of the 99 raw record bytes
(offsets from the packed vploopdata_t layout, see vploop above). -/
def parseVploop (bs : List Nat) : vploop :=
  { bar := le16 bs 7
    tempIn := le16 bs 9
    humIn := bs.getD 11 0
    tempOut := le16 bs 12
    windSpeed := bs.getD 14 0
    windSpeed10 := bs.getD 15 0
    windDir := le16 bs 16
    humOut := bs.getD 33 0
    rainRate := le16 bs 41
    solarRad := le16 bs 44
    rainDay := le16 bs 50
    rainMonth := le16 bs 52
    rainYear := le16 bs 54 }

/-- One full wxgetloop cycle: protocol, CRC gate, then decode into the
caller-zeroed wxdat.  On any protocol or CRC failure the sample is
returned untouched. -/
noncomputable def wxgetloopM (oob : Nat) (w0 : wxdat) (g : GustState) (st : PEState) :
    wxdat × GustState × PEState :=
  match wxgetloopBytes oob st with
  | (none, st') => (w0, g, st')
  | (some bs, st') =>
    let r := cvtvploop2fwx (parseVploop bs) w0 g
    (r.1, r.2, st')

/-! ## wxsendcwop (fwx.c lines 754-875) -/

/-- The environment of one wxsendcwop call: whether server, user and
location are configured, the wall-clock time at entry, and the outcome
of each externally visible step (name resolution, connect, the login
write, the weather-packet write).  The socket call and the banner waits
are assumed to succeed or return (they produce no branch that affects
the claims). -/
structure CwopEnv where
  hasConfig : Bool
  now : Int
  resolveOk : Bool
  connectOk : Bool
  loginWriteOk : Bool
  packetWriteOk : Bool
deriving DecidableEq, Repr

/-- wxsendcwop, as a function of the static lasthere timestamp and the
call environment; returns (new lasthere, whether a TCP connection was
opened).  Mirrors the source order: config gate, 5-minute rate gate
(now - lasthere < 5*60), resolution, connect (the connection counts as
opened once connect succeeds), banner wait, login write, banner wait,
packet write; lasthere is assigned only after the packet write
succeeded. -/
def wxsendcwop (lasthere : Int) (env : CwopEnv) : Int × Bool :=
  if !env.hasConfig then (lasthere, false)
  else if env.now - lasthere < 5 * 60 then (lasthere, false)
  else if !env.resolveOk then (lasthere, false)
  else if !env.connectOk then (lasthere, false)
  else if !env.loginWriteOk then (lasthere, true)
  else if !env.packetWriteOk then (lasthere, true)
  else (env.now, true)

/-! ## Concrete inputs used by the claims -/

/-- The all-sentinel LOOP record of claim C1: every payload byte 0xFF,
so every 1-byte field reads 0xFF and every 2-byte field reads 0xFFFF. -/
def allOnesLoop : vploop :=
  { bar := 0xffff
    tempIn := 0xffff
    humIn := 0xff
    tempOut := 0xffff
    windSpeed := 0xff
    windSpeed10 := 0xff
    windDir := 0xffff
    humOut := 0xff
    rainRate := 0xffff
    solarRad := 0xffff
    rainDay := 0xffff
    rainMonth := 0xffff
    rainYear := 0xffff }

/-- The sample decoded from the all-sentinel record in a cycle with the
default 30 second interval (caller-zeroed wxdat, fresh gust buffer). -/
noncomputable def decodeAllOnes : wxdat := (cvtvploop2fwx allOnesLoop {} (initGust 30)).1

/-- The claim C1 property at a decoded sample: every measurement field
invalid. -/
def allMeasurementsInvalid (w : wxdat) : Prop :=
  WXD_ISVALID w.barometer = false ∧ WXD_ISVALID w.windspeed = false ∧
  WXD_ISVALID w.winddir = false ∧ WXD_ISVALID w.avgwindspeed = false ∧
  WXD_ISVALID w.indoortemp = false ∧ WXD_ISVALID w.outdoortemp = false ∧
  WXD_ISVALID w.indoorhum = false ∧ WXD_ISVALID w.outdoorhum = false ∧
  WXD_ISVALID w.outdoordewpoint = false ∧ WXD_ISVALID w.rainrate = false ∧
  WXD_ISVALID w.rainday = false ∧ WXD_ISVALID w.rainmonth = false ∧
  WXD_ISVALID w.rainyear = false ∧ WXD_ISVALID w.solar = false

/-- Claim C4 record: a LOOP record with outdoor temperature 72.3 F
(raw 723 tenths) and outdoor humidity 50 percent, all other payload
fields at their sentinels. -/
def loopRecC4 : vploop := { allOnesLoop with tempOut := 723, humOut := 50 }

noncomputable def decodeC4 : wxdat := (cvtvploop2fwx loopRecC4 {} (initGust 30)).1

/-- Claim C8 sample: only barometer 29.921 and outdoor temperature 72.3
valid, versions 0/5, timestamp 1000000. -/
def sampleC8 : wxdat :=
  { time := 1000000
    barometer := { datF := mkRat 29921 1000, flags := WXD_VALID ||| WXD_ENGLISH ||| 3, units := "in" }
    outdoortemp := { datF := mkRat 723 10, flags := WXD_VALID ||| WXD_ENGLISH ||| 1, units := "deg F" } }

/-- Claim C2 record: a well-formed 99-byte LOOP record — signature
"LOO", zero payload, newline/return trailer, and the correct Davis CRC
0xB16F appended most-significant byte first, so that the published
residual over all 99 bytes is 0. -/
def loopRecordBytes : List Nat :=
  [76, 79, 79] ++ List.replicate 92 0 ++ [10, 13, 177, 111]

/-- Claim C2 transport script: one accepted wakeup, the command ACK,
then the 99 record bytes. -/
def scriptC2 : List (Option (List Nat)) :=
  [some [10, 13], some [6], some loopRecordBytes]

/-- Claim C3 script: four wake attempts each answered by two bytes
0x78 0x78 ("xx", accepted by neither the source condition nor the
claimed one), then six non-ACK bytes so the command also fails. -/
def scriptC3 : List (Option (List Nat)) :=
  [some [120, 120], some [120, 120], some [120, 120], some [120, 120],
   some [0], some [0], some [0], some [0], some [0], some [0]]

/-- Claim C7 input: six scripted non-ACK bytes; the sixth is read and
discarded. -/
def bytesC7 : List Nat := [0, 0, 0, 0, 0, 0]

/-! ## Wind-gust trace of claim C6 (window = 10 slots, interval 62 s) -/

/-- The observation fed on cycle n (0-based): speed 5 everywhere except
the spike of 40 on cycle 10. -/
def gustObs (n : Nat) : wind := if n = 10 then ⟨40, 0⟩ else ⟨5, 0⟩

/-- Gust-tracker states along the trace. -/
def gustStateAfter : Nat → GustState
  | 0 => initGust 62
  | n + 1 => (wxcalcwindgust (gustStateAfter n) (gustObs n)).1

/-- The observation reported on cycle n of the trace. -/
def gustResult (n : Nat) : Option wind := (wxcalcwindgust (gustStateAfter n) (gustObs n)).2

/-- The element-level scan step of the wxcalcwindgust loop: keep the
first observation whose speed strictly exceeds the running maximum. -/
def estep (acc : Int × Option wind) (e : wind) : Int × Option wind :=
  if e.speed > acc.1 then (e.speed, some e) else acc

/-- Steady state of the C6 trace: the whole 16-slot buffer holds
speed-5 observations. -/
def AllFive (st : GustState) : Prop :=
  st.walen = 16 ∧ st.tenmin = 10 ∧ st.waidx < 16 ∧ st.warr = List.replicate 16 ⟨5, 0⟩

/-! ## Helper lemmas -/

theorem wakeLoop_attempts_le (n : Nat) (st : PEState) : (wakeLoopM n st).2.1 ≤ n := by
  induction n generalizing st with
  | zero => simp [wakeLoopM]
  | succ n ih =>
    simp only [wakeLoopM]
    by_cases h : (wxwakeupM st).1
    · simp [h]
    · simpa [h] using Nat.succ_le_succ (ih _)

theorem doRead_writes (len : Nat) (st : PEState) : (doRead len st).2.writes = st.writes := by
  rcases st with ⟨cs, ws⟩
  cases cs <;> rfl

theorem ackGo_writes (n : Nat) (st : PEState) : (ackGo n st).2.2.writes = st.writes := by
  induction n generalizing st with
  | zero => simpa [ackGo] using doRead_writes 1 st
  | succ n ih =>
    simp only [ackGo]
    rcases hd : doRead 1 st with ⟨c, st'⟩
    have hw : st'.writes = st.writes := by
      have := doRead_writes 1 st
      rw [hd] at this
      exact this
    cases c with
    | none => exact hw
    | some bs =>
      simp only
      split
      · exact hw
      · exact (ih st').trans hw

theorem wxcmdM_writes (cmd : List Nat) (st : PEState) :
    (wxcmdM cmd st).2.writes = st.writes ++ [cmd] := by
  simp [wxcmdM, wxgetackM, ackGo_writes, doWrite]

theorem wxgetloopBytes_writes (oob : Nat) (st : PEState) :
    (wxgetloopBytes oob st).2.writes = (wakeLoopM 4 st).2.2.writes ++ [VPLOOPCMD_BYTES] := by
  simp only [wxgetloopBytes]
  rcases hcm : wxcmdM VPLOOPCMD_BYTES (wakeLoopM 4 st).2.2 with ⟨ok, st1⟩
  have hw1 : st1.writes = (wakeLoopM 4 st).2.2.writes ++ [VPLOOPCMD_BYTES] := by
    have := wxcmdM_writes VPLOOPCMD_BYTES (wakeLoopM 4 st).2.2
    rw [hcm] at this
    exact this
  by_cases hok : ok
  · simp only [hok, Bool.not_true, Bool.false_eq_true, if_false]
    rcases hrd : doRead 99 st1 with ⟨c, st2⟩
    have hw2 : st2.writes = st1.writes := by
      have := doRead_writes 99 st1
      rw [hrd] at this
      exact this
    have hfin : st2.writes = (wakeLoopM 4 st).2.2.writes ++ [VPLOOPCMD_BYTES] :=
      hw2.trans hw1
    cases c with
    | none => exact hfin
    | some bs =>
      simp only
      split
      · exact hfin
      · split
        · exact hfin
        · exact hfin
  · simp only [Bool.not_eq_true] at hok
    simp [hok, hw1]

/-- Unfolding of one failing (non-ACK byte) step of the ackGo loop. -/
theorem ackGo_cons_ne (n : Nat) (b : Nat) (bs : List Nat) (ws : List (List Nat))
    (hb : b ≠ ACK) :
    ackGo (n + 1) ⟨(b :: bs).map (fun x => some [x]), ws⟩
      = ((ackGo n ⟨bs.map (fun x => some [x]), ws⟩).1,
         (ackGo n ⟨bs.map (fun x => some [x]), ws⟩).2.1 + 1,
         (ackGo n ⟨bs.map (fun x => some [x]), ws⟩).2.2) := by
  have hcond : ([b].take 1).getD 0 0 ≠ ACK := by simpa using hb
  simp [ackGo, doRead, hb, hcond]

/-- Unfolding of one padding step of the ackGo loop on an exhausted
script (the read times out delivering no byte, ackbuf keeps its junk
contents, modelled 0, which is not the ACK). -/
theorem ackGo_nil (n : Nat) (ws : List (List Nat)) :
    ackGo (n + 1) ⟨([] : List Nat).map (fun x => some [x]), ws⟩
      = ((ackGo n ⟨([] : List Nat).map (fun x => some [x]), ws⟩).1,
         (ackGo n ⟨([] : List Nat).map (fun x => some [x]), ws⟩).2.1 + 1,
         (ackGo n ⟨([] : List Nat).map (fun x => some [x]), ws⟩).2.2) := rfl

/-- Unfolding of the successful (ACK byte) step of the ackGo loop. -/
theorem ackGo_cons_ack (n : Nat) (bs : List Nat) (ws : List (List Nat)) :
    ackGo (n + 1) ⟨(ACK :: bs).map (fun x => some [x]), ws⟩
      = (true, 1, ⟨bs.map (fun x => some [x]), ws⟩) := rfl

theorem ackGo_trace (n : Nat) :
    ∀ (bs : List Nat) (ws : List (List Nat)),
    ((ackGo n ⟨bs.map (fun b => some [b]), ws⟩).1 = true ↔ ACK ∈ bs.take n) ∧
    ((ackGo n ⟨bs.map (fun b => some [b]), ws⟩).1 = false →
      (ackGo n ⟨bs.map (fun b => some [b]), ws⟩).2.1 = n + 1) := by
  induction n with
  | zero =>
    intro bs ws
    exact ⟨by simp [ackGo], fun _ => rfl⟩
  | succ n ih =>
    intro bs ws
    cases bs with
    | nil =>
      rw [ackGo_nil]
      exact ⟨by simpa using (ih [] ws).1,
             fun h => by simpa using (ih [] ws).2 (by simpa using h)⟩
    | cons b bs =>
      by_cases hb : b = ACK
      · subst hb
        rw [ackGo_cons_ack]
        simp
      · rw [ackGo_cons_ne n b bs ws hb]
        constructor
        · simpa [List.take_succ_cons, Ne.symm hb] using (ih bs ws).1
        · intro h
          have := (ih bs ws).2 (by simpa using h)
          simp [this]

theorem wxcrc_eq_crcFold (bs : List Nat) : wxcrc bs = crcFold 0 bs := rfl

theorem crcFold_append (c : Nat) (xs ys : List Nat) :
    crcFold c (xs ++ ys) = crcFold (crcFold c xs) ys := by
  simp [crcFold, List.foldl_append]

/-! ## Claim theorems -/

/-- Claim C1, counterexample: decoding the all-sentinel LOOP record does
NOT leave every measurement field invalid — the indoor temperature
field (like the outdoor one) comes out valid, because the raw 0xFFFF
reads as the signed value -1, which differs from 0x1000 and lies inside
the (-1500, 1500) plausibility band. -/
theorem C1_counterexample : ¬ allMeasurementsInvalid decodeAllOnes := by
  intro h
  exact absurd h.2.2.2.2.1 (by decide)

/-- Claim C1, amended: decoding the all-sentinel LOOP record leaves
every measurement field invalid EXCEPT indoor and outdoor temperature,
which are accepted (raw 0xFFFF = signed -1 passes the temperature
filter) and stored valid, English, one decimal place, value -0.1. -/
theorem C1_amended :
    decodeAllOnes.indoortemp.datF = -1 / 10 ∧
    decodeAllOnes.outdoortemp.datF = -1 / 10 ∧
    WXD_ISVALID decodeAllOnes.indoortemp = true ∧
    WXD_ISVALID decodeAllOnes.outdoortemp = true ∧
    decodeAllOnes.indoortemp.flags = (WXD_VALID ||| WXD_ENGLISH ||| 1) ∧
    decodeAllOnes.outdoortemp.flags = (WXD_VALID ||| WXD_ENGLISH ||| 1) ∧
    WXD_ISVALID decodeAllOnes.barometer = false ∧
    WXD_ISVALID decodeAllOnes.windspeed = false ∧
    WXD_ISVALID decodeAllOnes.winddir = false ∧
    WXD_ISVALID decodeAllOnes.avgwindspeed = false ∧
    WXD_ISVALID decodeAllOnes.indoorhum = false ∧
    WXD_ISVALID decodeAllOnes.outdoorhum = false ∧
    WXD_ISVALID decodeAllOnes.outdoordewpoint = false ∧
    WXD_ISVALID decodeAllOnes.rainrate = false ∧
    WXD_ISVALID decodeAllOnes.rainday = false ∧
    WXD_ISVALID decodeAllOnes.rainmonth = false ∧
    WXD_ISVALID decodeAllOnes.rainyear = false ∧
    WXD_ISVALID decodeAllOnes.solar = false := by
  have hin : decodeAllOnes.indoortemp.datF = mkRat (-1) 10 := by decide
  have hout : decodeAllOnes.outdoortemp.datF = mkRat (-1) 10 := by decide
  refine ⟨?_, ?_, by decide⟩
  · rw [hin, Rat.mkRat_eq_div]
    norm_num
  · rw [hout, Rat.mkRat_eq_div]
    norm_num

/-- Claim C10: on the very first call after allocation, with a calm
(speed 0) current observation, every slot of the scanned window has
speed 0, the strict comparison never fires, and the C variable found is
read without ever having been assigned — modelled as the selection
being none, so the call returns no well-defined element of the window
buffer (the C code dereferences warr at an indeterminate index). -/
theorem C10_uninit_found :
    (wxcalcwindgust (initGust 62) ⟨0, 0⟩).2 = none ∧ (initGust 62).tenmin = 10 := by
  decide

/-- Claim C8: the CSV writer truncates the line at the first invalid
field.  For the claimed sample (only barometer 29.921 and outdoor
temperature 72.3 valid, versions 0/5, timestamp 1000000) the emitted
line stops right after the empty wind-speed and wind-direction columns,
because the invalid-field branch of wxlog stores a comma and a NUL
terminator and then advances past the terminator, so fprintf("%s")
never reaches the later columns; the claimed full 17-column line (the
third conjunct below evaluates the claim-side renderer) is not
produced. -/
theorem C8_csv_truncation :
    String.mk (wxlogLine sampleC8) = "0,5,1000000,29.921,,,\n" ∧
    String.mk (claimCsvLine sampleC8) = "0,5,1000000,29.921,,,,,72.3,,,,,,,,,\n" ∧
    wxlogLine sampleC8 ≠ claimCsvLine sampleC8 := by
  decide

/-- Claim C9: the CWOP rate limit.  (1) If fewer than 5 minutes have
elapsed since lasthere, the call opens no connection and changes
nothing.  (2) The rate-limit timestamp changes only on a fully
successful send (configuration present, rate gate passed, resolution,
connect, login write and packet write all succeeded), in which case it
becomes the entry time.  (3) Concretely: a successful send at t=1000,
a second attempt 4 minutes later opens no connection, while a second
attempt 6 minutes later opens one and updates the timestamp. -/
theorem C9_cwop_rate_limit :
    (∀ (lasthere : Int) (env : CwopEnv), env.now - lasthere < 5 * 60 →
      wxsendcwop lasthere env = (lasthere, false)) ∧
    (∀ (lasthere : Int) (env : CwopEnv), (wxsendcwop lasthere env).1 ≠ lasthere →
      wxsendcwop lasthere env = (env.now, true) ∧ env.hasConfig = true ∧
      env.resolveOk = true ∧ env.connectOk = true ∧ env.loginWriteOk = true ∧
      env.packetWriteOk = true ∧ 5 * 60 ≤ env.now - lasthere) ∧
    wxsendcwop 0 ⟨true, 1000, true, true, true, true⟩ = (1000, true) ∧
    wxsendcwop 1000 ⟨true, 1240, true, true, true, true⟩ = (1000, false) ∧
    wxsendcwop 1000 ⟨true, 1360, true, true, true, true⟩ = (1360, true) := by
  refine ⟨?_, ?_, by decide, by decide, by decide⟩
  · intro lh env h
    unfold wxsendcwop
    split_ifs with h1 <;> rfl
  · intro lh env h
    unfold wxsendcwop at h ⊢
    split_ifs at h ⊢ with h1 h2 h3 h4 h5 h6 <;> simp_all

/-- Claim C9 witness for the hypotheses of the rate-limit theorem:
an attempt 100 seconds after a send at time 0 is skipped. -/
theorem C9_witness : wxsendcwop 0 ⟨true, 100, true, true, true, true⟩ = (0, false) :=
  C9_cwop_rate_limit.1 0 ⟨true, 100, true, true, true, true⟩ (by decide)

/-- Claim C5, counterexample: at sampling interval 200 the window
length is 600/200+1 = 4, itself a power of two, and the chosen capacity
is 8, not the smallest power of two greater than or equal to 4. -/
theorem C5_counterexample :
    ¬ (isPow2 (capacityOf 200) ∧ tenminOf 200 ≤ capacityOf 200 ∧
       ∀ m, isPow2 m → tenminOf 200 ≤ m → capacityOf 200 ≤ m) := by
  intro h
  have h4 := h.2.2 4 ⟨2, rfl⟩ (by decide)
  have hc : capacityOf 200 = 8 := by decide
  omega

/-- Claim C7, counterexample: with six scripted non-ACK bytes the ACK
wait performs six reads, not at most five, before failing. -/
theorem C7_counterexample :
    (wxgetackM (initPE (bytesC7.map (fun b => some [b])))).2.1 = 6 ∧
    (wxgetackM (initPE (bytesC7.map (fun b => some [b])))).1 = false := by
  decide

/-- Claim C7, amended: after the command is written the engine reads
one byte at a time; it succeeds exactly when one of the FIRST FIVE
reads delivers the ACK byte 0x06 (any other byte is discarded and the
read repeated), and on failure it performs one further, sixth read —
whose byte is discarded even if it is the ACK — before reporting the
command failed. -/
theorem C7_amended (bs : List Nat) :
    ((wxgetackM (initPE (bs.map (fun b => some [b])))).1 = true ↔ ACK ∈ bs.take 5) ∧
    ((wxgetackM (initPE (bs.map (fun b => some [b])))).1 = false →
      (wxgetackM (initPE (bs.map (fun b => some [b])))).2.1 = 6) :=
  ackGo_trace 5 bs []

/-- Claim C7 witness: an ACK delivered on the first read succeeds. -/
theorem C7_witness : (wxgetackM (initPE ([6].map (fun b => some [b])))).1 = true :=
  (C7_amended [6]).1.mpr (by decide)

/-- Claim C3, counterexample: with four wake attempts all answered by
the bytes "xx" (accepted neither by the source test nor by the claimed
one) the wake loop fails after exactly 4 attempts, yet the engine still
writes the LOOP command to the station — the cycle is not abandoned at
the wake stage. -/
theorem C3_counterexample :
    (wakeLoopM 4 (initPE scriptC3)).1 = false ∧
    (wakeLoopM 4 (initPE scriptC3)).2.1 = 4 ∧
    VPLOOPCMD_BYTES ∈ (wxgetloopBytes 0 (initPE scriptC3)).2.writes ∧
    (wxgetloopBytes 0 (initPE scriptC3)).1 = none := by
  decide

/-- Claim C3, amended: the engine makes at most 4 wake attempts per
cycle; an attempt is accepted exactly when its first byte is CR or LF
or its second byte is LF or CR (not only the exact pairs CR-LF /
LF-CR); and whatever the wake outcome, the engine always proceeds to
write the LOOP command — abandonment can only come from the later ACK
wait. -/
theorem C3_amended :
    (∀ chunks : List (Option (List Nat)), (wakeLoopM 4 (initPE chunks)).2.1 ≤ 4) ∧
    (∀ r0 r1 : Nat, wakeAccept r0 r1 = true ↔ (r0 = 13 ∨ r0 = 10 ∨ r1 = 10 ∨ r1 = 13)) ∧
    (∀ (oob : Nat) (chunks : List (Option (List Nat))),
      VPLOOPCMD_BYTES ∈ (wxgetloopBytes oob (initPE chunks)).2.writes) := by
  refine ⟨fun chunks => wakeLoop_attempts_le 4 _, ?_, ?_⟩
  · intro r0 r1
    constructor
    · intro h
      simp [wakeAccept] at h
      tauto
    · intro h
      simp [wakeAccept]
      tauto
  · intro oob chunks
    rw [wxgetloopBytes_writes]
    exact List.mem_append_right _ (List.mem_singleton.mpr rfl)

/-- Claim C3 witness: a wake response of exactly CR LF is accepted. -/
theorem C3_witness : wakeAccept 13 10 = true :=
  (C3_amended.2.1 13 10).mpr (Or.inl rfl)

set_option maxRecDepth 4096 in
/-- Claim C2: the CRC gate of wxgetloop.  loopRecordBytes is a
well-formed record: the published residual over all 99 bytes (signature
included, the two stored CRC bytes last) is 0, equivalently the CRC
over the 97 bytes preceding the checksum equals the stored big-endian
checksum.  The source, however, feeds wxcrc the window shifted by one:
bytes 1..98 of the record plus one indeterminate out-of-bounds byte,
and that CRC is nonzero whatever the out-of-bounds byte is, so the
valid record is discarded — wxgetloop returns before decoding and the
cycle's sample keeps its zeroed state. -/
theorem C2_crc_code_bug :
    wxcrc loopRecordBytes = 0 ∧
    wxcrc (loopRecordBytes.take 97) =
      256 * loopRecordBytes.getD 97 0 + loopRecordBytes.getD 98 0 ∧
    (∀ g : Nat, wxcrc (loopRecordBytes.drop 1 ++ [g]) ≠ 0) ∧
    (wxgetloopBytes 0 (initPE scriptC2)).1 = none ∧
    (wxgetloopM 0 {} (initGust 30) (initPE scriptC2)).1 = ({} : wxdat) := by
  have c1 : crcFold 0 [76, 79, 79] = 52245 := by decide
  have c2 : crcFold 52245 (List.replicate 23 0) = 47520 := by decide
  have c3 : crcFold 47520 (List.replicate 23 0) = 28163 := by decide
  have c4 : crcFold 28163 (List.replicate 23 0) = 16764 := by decide
  have c5 : crcFold 16764 (List.replicate 23 0) = 24448 := by decide
  have c6 : crcFold 24448 [10, 13, 177, 111] = 0 := by decide
  have c6a : crcFold 24448 [10, 13] = 45423 := by decide
  have d1 : crcFold 0 [79, 79] = 42201 := by decide
  have d2 : crcFold 42201 (List.replicate 23 0) = 38530 := by decide
  have d3 : crcFold 38530 (List.replicate 23 0) = 36057 := by decide
  have d4 : crcFold 36057 (List.replicate 23 0) = 61013 := by decide
  have d5 : crcFold 61013 (List.replicate 23 0) = 50688 := by decide
  have d6 : crcFold 50688 [10, 13, 177, 111] = 3762 := by decide
  have efull : loopRecordBytes
      = [76, 79, 79] ++ (List.replicate 23 0 ++ (List.replicate 23 0 ++
        (List.replicate 23 0 ++ (List.replicate 23 0 ++ [10, 13, 177, 111])))) := by decide
  have hfull : wxcrc loopRecordBytes = 0 := by
    rw [wxcrc_eq_crcFold, efull, crcFold_append, c1, crcFold_append, c2,
        crcFold_append, c3, crcFold_append, c4, crcFold_append, c5, c6]
  have etake : loopRecordBytes.take 97
      = [76, 79, 79] ++ (List.replicate 23 0 ++ (List.replicate 23 0 ++
        (List.replicate 23 0 ++ (List.replicate 23 0 ++ [10, 13])))) := by decide
  have htake : wxcrc (loopRecordBytes.take 97) = 45423 := by
    rw [wxcrc_eq_crcFold, etake, crcFold_append, c1, crcFold_append, c2,
        crcFold_append, c3, crcFold_append, c4, crcFold_append, c5, c6a]
  have edrop : loopRecordBytes.drop 1
      = [79, 79] ++ (List.replicate 23 0 ++ (List.replicate 23 0 ++
        (List.replicate 23 0 ++ (List.replicate 23 0 ++ [10, 13, 177, 111])))) := by decide
  have hv : wxcrc (loopRecordBytes.drop 1) = 3762 := by
    rw [wxcrc_eq_crcFold, edrop, crcFold_append, d1, crcFold_append, d2,
        crcFold_append, d3, crcFold_append, d4, crcFold_append, d5, d6]
  have hall : ∀ m, m ≤ 255 → crcStep 3762 m ≠ 0 := by decide
  have hforall : ∀ g : Nat, wxcrc (loopRecordBytes.drop 1 ++ [g]) ≠ 0 := by
    intro g
    have hsplit : wxcrc (loopRecordBytes.drop 1 ++ [g])
        = crcStep (wxcrc (loopRecordBytes.drop 1)) g := by
      rw [wxcrc_eq_crcFold, crcFold_append]
      rfl
    have h2 : (255 : Nat) &&& 255 = 255 := by decide
    have h255 : g &&& 255 &&& 255 = g &&& 255 := by rw [Nat.and_assoc, h2]
    have hmask : crcStep 3762 g = crcStep 3762 (g &&& 255) := by
      simp only [crcStep, h255]
    rw [hsplit, hv, hmask]
    exact hall _ Nat.and_le_right
  have hwake : wakeLoopM 4 (initPE scriptC2)
      = (true, 1, ⟨[some [6], some loopRecordBytes], [[10]]⟩) := by decide
  have hcmd : wxcmdM VPLOOPCMD_BYTES ⟨[some [6], some loopRecordBytes], [[10]]⟩
      = (true, ⟨[some loopRecordBytes], [[10], VPLOOPCMD_BYTES]⟩) := by decide
  have hread : doRead 99 ⟨[some loopRecordBytes], [[10], VPLOOPCMD_BYTES]⟩
      = (some (loopRecordBytes.take 99), ⟨[], [[10], VPLOOPCMD_BYTES]⟩) := rfl
  have htk99 : loopRecordBytes.take 99 = loopRecordBytes := by decide
  have hlen : ¬ (loopRecordBytes.length ≠ 99) := by decide
  have hnone : (wxgetloopBytes 0 (initPE scriptC2)).1 = none := by
    simp only [wxgetloopBytes, hwake, hcmd, hread, htk99, Bool.not_true,
      Bool.false_eq_true, if_false]
    rw [if_neg hlen, if_pos (hforall 0)]
  refine ⟨hfull, ?_, hforall, hnone, ?_⟩
  · rw [htake]
    decide
  · rcases hb : wxgetloopBytes 0 (initPE scriptC2) with ⟨r, st2⟩
    rw [hb] at hnone
    simp only at hnone
    subst hnone
    unfold wxgetloopM
    rw [hb]

set_option maxRecDepth 4096 in
/-- Claim C4: the unit branch of the dewpoint computation is selected
by the English flag of the HUMIDITY input, not of the temperature.  For
a sample decoded from a LOOP record with outdoor temperature 72.3
(flagged valid+English, in degrees F) and outdoor humidity 50 (flagged
valid only — the decoder never sets WXD_ENGLISH on humidity), the
computation takes the Celsius branch: the Fahrenheit number 72.3 is fed
unconverted into the Sonntag formula and the result is stored flagged
metric with units "deg C" — not converted back to Fahrenheit and
flagged English as the claim requires. -/
theorem C4_dewpoint_code_bug :
    WXD_ISVALID decodeC4.outdoortemp = true ∧
    WXD_ISENGLISH decodeC4.outdoortemp = true ∧
    WXD_ISVALID decodeC4.outdoorhum = true ∧
    WXD_ISENGLISH decodeC4.outdoorhum = false ∧
    decodeC4.outdoorhum.flags = (WXD_VALID ||| 0) ∧
    WXD_ISVALID decodeC4.outdoordewpoint = true ∧
    decodeC4.outdoordewpoint.flags = (WXD_VALID ||| WXD_METRIC ||| 1) ∧
    decodeC4.outdoordewpoint.units = "deg C" ∧
    WXD_ISENGLISH decodeC4.outdoordewpoint = false ∧
    decodeC4.outdoordewpoint.datR =
      sonntagDewpoint (decodeC4.outdoortemp.datF : ℝ) (decodeC4.outdoorhum.datF : ℝ) := by
  refine ⟨by decide, by decide, by decide, by decide, by decide, by decide, by decide,
    by decide, by decide, rfl⟩

theorem walenGo_eq (fuel w i : Nat) (h1 : 1 ≤ i) (h2 : i ≤ fuel) :
    walenGo fuel w i = w * 2 ^ (Nat.log 2 i + 1) := by
  induction fuel generalizing w i with
  | zero => omega
  | succ fuel ih =>
    simp only [walenGo]
    by_cases hz : i / 2 = 0
    · have hi1 : i = 1 := by omega
      subst hi1
      simp [hz]
    · rw [if_neg hz]
      have hge2 : 2 ≤ i := by omega
      rw [ih (w * 2) (i / 2) (by omega) (by omega)]
      rw [Nat.log_div_base 2 i]
      have hpos : 0 < Nat.log 2 i := Nat.log_pos (by norm_num) hge2
      have he : Nat.log 2 i - 1 + 1 = Nat.log 2 i := by omega
      rw [he]
      ring

/-- Claim C5, amended: the capacity chosen at first use is the smallest
power of two STRICTLY GREATER than (600 / interval) + 1 — the do-while
doubles once per bit of tenmin, giving 2 ^ (log2 tenmin + 1); when
tenmin is itself a power of two the capacity is twice tenmin, not
tenmin. -/
theorem C5_amended (fwxinterval : Nat) (_h : 1 ≤ fwxinterval) :
    capacityOf fwxinterval = 2 ^ (Nat.log 2 (tenminOf fwxinterval) + 1) ∧
    isPow2 (capacityOf fwxinterval) ∧
    tenminOf fwxinterval < capacityOf fwxinterval ∧
    (∀ m, isPow2 m → tenminOf fwxinterval < m → capacityOf fwxinterval ≤ m) := by
  have ht1 : 1 ≤ tenminOf fwxinterval := Nat.le_add_left 1 _
  have hcap : capacityOf fwxinterval = 2 ^ (Nat.log 2 (tenminOf fwxinterval) + 1) := by
    unfold capacityOf
    rw [walenGo_eq _ 1 _ ht1 (le_refl _), one_mul]
  refine ⟨hcap, ⟨_, hcap⟩, ?_, ?_⟩
  · rw [hcap]
    exact Nat.lt_pow_succ_log_self (by norm_num) _
  · rintro m ⟨k, rfl⟩ hm
    rw [hcap]
    apply Nat.pow_le_pow_right (by norm_num)
    have hlow : 2 ^ Nat.log 2 (tenminOf fwxinterval) ≤ tenminOf fwxinterval :=
      Nat.pow_log_le_self 2 (by omega)
    have hlt : 2 ^ Nat.log 2 (tenminOf fwxinterval) < 2 ^ k := lt_of_le_of_lt hlow hm
    have := (Nat.pow_lt_pow_iff_right (by norm_num : 1 < 2)).1 hlt
    omega

/-- Claim C5 witness: at the default 30 second interval, tenmin is 21
and the capacity is 2^5 = 32. -/
theorem C5_witness : 1 ≤ 30 ∧ capacityOf 30 = 2 ^ (Nat.log 2 (tenminOf 30) + 1) :=
  ⟨by decide, (C5_amended 30 (by decide)).1⟩

theorem getD_mem {l : List wind} {n : Nat} (d : wind) (h : n < l.length) :
    l.getD n d ∈ l := by
  rw [List.getD_eq_getElem?_getD, List.getElem?_eq_getElem h]
  simp

theorem getD_append_left {l : List wind} (l' : List wind) (d : wind) {n : Nat}
    (h : n < l.length) : (l ++ l').getD n d = l.getD n d :=
  List.getD_append l l' d n h

theorem getD_append_len (l : List wind) (e d : wind) :
    (l ++ [e]).getD l.length d = e := by
  rw [List.getD_eq_getElem?_getD, List.getElem?_append_right (Nat.le_refl _)]
  simp

/-- The index-level scan of wxcalcwindgust tracks the element-level
fold: u maps scan positions to buffer indices, v reads the buffer. -/
theorem gust_fold_spec (u : Nat → Nat) (v : Nat → wind) (is : List Nat)
    (g : Int) (o : Option Nat) :
    (((is.foldl (fun (acc : Int × Option Nat) i =>
        if (v (u i)).speed > acc.1 then ((v (u i)).speed, some (u i)) else acc) (g, o)).1),
     ((is.foldl (fun (acc : Int × Option Nat) i =>
        if (v (u i)).speed > acc.1 then ((v (u i)).speed, some (u i)) else acc) (g, o)).2.map v))
    = (is.map (fun i => v (u i))).foldl estep (g, o.map v) := by
  induction is generalizing g o with
  | nil => rfl
  | cons i is ih =>
    simp only [List.foldl_cons, List.map_cons, estep]
    by_cases hc : (v (u i)).speed > g
    · simpa [hc] using ih ((v (u i)).speed) (some (u i))
    · simpa [hc] using ih g o

/-- Characterization of the element-level fold from (0, none): if it
selects nothing, every scanned speed was nonpositive; if it selects w,
then w is the first maximum of the list. -/
theorem estep_foldl_char (l : List wind) :
    ((l.foldl estep (0, none)).2 = none →
      (l.foldl estep (0, none)).1 = 0 ∧ ∀ e ∈ l, e.speed ≤ 0) ∧
    (∀ w, (l.foldl estep (0, none)).2 = some w →
      w.speed = (l.foldl estep (0, none)).1 ∧ firstMaxProp l w) := by
  induction l using List.reverseRecOn with
  | nil =>
    exact ⟨fun _ => ⟨rfl, by simp⟩, fun w hw => by simp [List.foldl] at hw⟩
  | append_singleton l e ih =>
    rw [List.foldl_append]
    rcases hr : l.foldl estep (0, none) with ⟨G, o⟩
    rw [hr] at ih
    have ihn : o = none → G = 0 ∧ ∀ x ∈ l, x.speed ≤ 0 := fun h => ih.1 h
    have ihs : ∀ w0, o = some w0 →
        w0.speed = G ∧ ∃ i, i < l.length ∧ l.getD i ⟨0, 0⟩ = w0 ∧
          (∀ j, j < l.length → (l.getD j ⟨0, 0⟩).speed ≤ w0.speed) ∧
          (∀ j, j < i → (l.getD j ⟨0, 0⟩).speed < w0.speed) := by
      intro w0 h
      simpa [firstMaxProp] using ih.2 w0 h
    have hbound : ∀ j, j < l.length → (l.getD j ⟨0, 0⟩).speed ≤ G := by
      intro j hj
      cases o with
      | none =>
        have h0 := ihn rfl
        have := h0.2 _ (getD_mem ⟨0, 0⟩ hj)
        omega
      | some w0 =>
        obtain ⟨hsp, i0, hi0, hget0, hmax0, hstrict0⟩ := ihs w0 rfl
        have := hmax0 j hj
        omega
    simp only [List.foldl_cons, List.foldl_nil, estep]
    by_cases he : e.speed > G
    · rw [if_pos he]
      constructor
      · intro h
        simp at h
      intro w hw
      have hew : e = w := by
        have h2 : some e = some w := hw
        injection h2
      subst hew
      refine ⟨rfl, ?_⟩
      simp only [firstMaxProp]
      refine ⟨l.length, by simp, getD_append_len l e ⟨0, 0⟩, ?_, ?_⟩
      · intro j hj
        rcases Nat.lt_or_ge j l.length with hjl | hjl
        · rw [getD_append_left _ _ hjl]
          have := hbound j hjl
          omega
        · have hj1 : j = l.length := by
            simp at hj
            omega
          rw [hj1, getD_append_len l e ⟨0, 0⟩]
      · intro j hj
        rw [getD_append_left _ _ hj]
        have := hbound j hj
        omega
    · rw [if_neg he]
      constructor
      · intro h
        have ho : o = none := h
        obtain ⟨hG0, hall⟩ := ihn ho
        refine ⟨hG0, ?_⟩
        intro x hx
        rcases List.mem_append.1 hx with hx | hx
        · exact hall x hx
        · have hxe : x = e := by simpa using hx
          subst hxe
          omega
      · intro w hw
        have ho : o = some w := hw
        obtain ⟨hsp, i0, hi0, hget0, hmax0, hstrict0⟩ := ihs w ho
        refine ⟨hsp, ?_⟩
        simp only [firstMaxProp]
        refine ⟨i0, ?_, ?_, ?_, ?_⟩
        · simp
          omega
        · rw [getD_append_left _ _ hi0]
          exact hget0
        · intro j hj
          rcases Nat.lt_or_ge j l.length with hjl | hjl
          · rw [getD_append_left _ _ hjl]
            exact hmax0 j hjl
          · have hj1 : j = l.length := by
              simp at hj
              omega
            rw [hj1, getD_append_len l e ⟨0, 0⟩]
            omega
        · intro j hj
          rw [getD_append_left _ _ (Nat.lt_of_lt_of_le hj (Nat.le_of_lt hi0))]
          exact hstrict0 j hj

/-- The scan of wxcalcwindgust returns the earliest maximum of the
scanned window whenever some scanned slot has positive speed. -/
theorem scan_firstMax (u : Nat → Nat) (v : Nat → wind) (n : Nat)
    (hpos : ∃ w ∈ (List.range n).map (fun i => v (u i)), 0 < w.speed) :
    ∃ r, ((List.range n).foldl (fun (acc : Int × Option Nat) i =>
        if (v (u i)).speed > acc.1 then ((v (u i)).speed, some (u i)) else acc)
      (0, none)).2.map v = some r ∧
      firstMaxProp ((List.range n).map (fun i => v (u i))) r := by
  have hkey := gust_fold_spec u v (List.range n) 0 none
  have hchar := estep_foldl_char ((List.range n).map (fun i => v (u i)))
  have h2 : ((List.range n).foldl (fun (acc : Int × Option Nat) i =>
      if (v (u i)).speed > acc.1 then ((v (u i)).speed, some (u i)) else acc)
      (0, none)).2.map v
      = (((List.range n).map (fun i => v (u i))).foldl estep (0, none)).2 :=
    congrArg Prod.snd hkey
  rcases hn : (((List.range n).map (fun i => v (u i))).foldl estep (0, none)).2 with _ | r
  · obtain ⟨w, hw, hwpos⟩ := hpos
    have := (hchar.1 hn).2 w hw
    omega
  · exact ⟨r, h2.trans hn, (hchar.2 r hn).2⟩

theorem set_replicate_self (n i : Nat) (a : wind) :
    (List.replicate n a).set i a = List.replicate n a := by
  induction n generalizing i with
  | zero => rfl
  | succ n ih =>
    cases i with
    | zero => rfl
    | succ i => simp [List.replicate_succ, ih]

theorem getD_replicate_and15 (a d : wind) (x : Nat) :
    (List.replicate 16 a).getD (x &&& 15) d = a := by
  have hx : x &&& 15 < 16 := Nat.lt_succ_of_le Nat.and_le_right
  rw [List.getD_eq_getElem?_getD, List.getElem?_eq_getElem (by simpa using hx)]
  simp only [Option.getD_some, List.getElem_replicate]

theorem getElemOpt_replicate_and15 (a d : wind) (x : Nat) :
    ((List.replicate 16 a)[x &&& 15]?).getD d = a := by
  have hx : x &&& 15 < 16 := Nat.lt_succ_of_le Nat.and_le_right
  rw [List.getElem?_eq_getElem (by simpa using hx)]
  simp only [Option.getD_some, List.getElem_replicate]

/-- One call on a buffer full of speed-5 observations reports ⟨5,0⟩ and
keeps the buffer full of speed-5 observations. -/
theorem allFive_step (st : GustState) (h : AllFive st) :
    (wxcalcwindgust st ⟨5, 0⟩).2 = some ⟨5, 0⟩ ∧ AllFive (wxcalcwindgust st ⟨5, 0⟩).1 := by
  obtain ⟨hlen, hten, hidx, hwarr⟩ := h
  rcases st with ⟨warr, walen, waidx, tenmin⟩
  simp only at hlen hten hidx hwarr
  subst hlen
  subst hten
  subst hwarr
  have hset : (List.replicate 16 (⟨5, 0⟩ : wind)).set waidx ⟨5, 0⟩
      = List.replicate 16 ⟨5, 0⟩ := set_replicate_self 16 waidx ⟨5, 0⟩
  have hr10 : List.range 10 = [0, 1, 2, 3, 4, 5, 6, 7, 8, 9] := by decide
  constructor
  · show (wxcalcwindgust ⟨List.replicate 16 ⟨5, 0⟩, 16, waidx, 10⟩ ⟨5, 0⟩).2 = some ⟨5, 0⟩
    simp only [wxcalcwindgust]
    rw [hset]
    rw [show (16 - 1 : Nat) = 15 from rfl]
    simp only [hr10, List.foldl_cons, List.foldl_nil, getD_replicate_and15]
    norm_num
    rw [getElemOpt_replicate_and15]
  · refine ⟨rfl, rfl, ?_, ?_⟩
    · show (waidx + 1) &&& (16 - 1) < 16
      exact Nat.lt_succ_of_le Nat.and_le_right
    · show (List.replicate 16 (⟨5, 0⟩ : wind)).set waidx ⟨5, 0⟩ = List.replicate 16 ⟨5, 0⟩
      exact hset

set_option maxRecDepth 4096 in
theorem gustTrace_lt27 :
    ∀ m, m < 27 → gustResult m = some ⟨if 10 ≤ m ∧ m ≤ 19 then 40 else 5, 0⟩ := by
  decide

set_option maxRecDepth 4096 in
theorem allFive_27 : AllFive (gustStateAfter 27) := by
  simp only [AllFive]
  refine ⟨by decide, by decide, by decide, by decide⟩

theorem allFive_after (m : Nat) : AllFive (gustStateAfter (27 + m)) := by
  induction m with
  | zero => exact allFive_27
  | succ m ih =>
    have hstep : gustStateAfter (27 + (m + 1))
        = (wxcalcwindgust (gustStateAfter (27 + m)) (gustObs (27 + m))).1 := rfl
    have hobs : gustObs (27 + m) = ⟨5, 0⟩ := by
      simp only [gustObs, if_neg (by omega : ¬ 27 + m = 10)]
    rw [hstep, hobs]
    exact (allFive_step _ ih).2

/-- The reported gust along the C6 trace: 40 on exactly the ten cycles
10..19 (0-based; the spike is fed on cycle 10), 5 on every other
cycle. -/
theorem gustTrace (n : Nat) :
    gustResult n = some ⟨if 10 ≤ n ∧ n ≤ 19 then 40 else 5, 0⟩ := by
  rcases Nat.lt_or_ge n 27 with hn | hn
  · exact gustTrace_lt27 n hn
  · have h5 : AllFive (gustStateAfter n) := by
      have he : n = 27 + (n - 27) := by omega
      rw [he]
      exact allFive_after (n - 27)
    have hobs : gustObs n = ⟨5, 0⟩ := by
      simp only [gustObs, if_neg (by omega : ¬ n = 10)]
    have hif : (if 10 ≤ n ∧ n ≤ 19 then (40 : Int) else 5) = 5 := by
      rw [if_neg]
      omega
    rw [hif, show gustResult n = (wxcalcwindgust (gustStateAfter n) (gustObs n)).2 from rfl,
      hobs]
    exact (allFive_step _ h5).1

/-- Claim C6, counterexample: on the very first call with a calm
observation every scanned slot has speed 0, the call selects no index
(the C found variable is never assigned), and in particular it does not
return the earliest maximum-speed observation of the window as the
claim asserts for every call. -/
theorem C6_counterexample :
    ¬ ∃ v, (wxcalcwindgust (initGust 62) ⟨0, 0⟩).2 = some v ∧
      firstMaxProp (windowOf (wxcalcwindgust (initGust 62) ⟨0, 0⟩).1) v := by
  rintro ⟨v, hv, _⟩
  rw [show (wxcalcwindgust (initGust 62) ⟨0, 0⟩).2 = none from by decide] at hv
  cases hv

/-- Claim C6, amended: every call stores the observation over the slot
under the cursor and advances the cursor by one, masked with
capacity-1 (equivalently, modulo the capacity, the capacity being a
power of two); whenever the scanned window contains an observation
with positive speed, the call returns the window observation of
maximal speed, ties broken by earliest (oldest) occurrence. (When every
scanned speed is 0 the selection is unassigned — claim C10.)
Consequently, with a 10-slot window (interval 62 s) and the feed 5,...,
5, 40 (cycle 10), 5, 5, ..., the reported gust is 40 for exactly the
ten cycles 10..19 and 5 on every other cycle. -/
theorem C6_amended :
    (∀ (st : GustState) (wp : wind),
      (wxcalcwindgust st wp).1.warr = st.warr.set st.waidx wp ∧
      (wxcalcwindgust st wp).1.waidx = (st.waidx + 1) &&& (st.walen - 1) ∧
      (∀ k, st.walen = 2 ^ k → (wxcalcwindgust st wp).1.waidx = (st.waidx + 1) % st.walen) ∧
      ((∃ w ∈ windowOf (wxcalcwindgust st wp).1, 0 < w.speed) →
        ∃ v, (wxcalcwindgust st wp).2 = some v ∧
          firstMaxProp (windowOf (wxcalcwindgust st wp).1) v)) ∧
    (∀ n, gustResult n = some ⟨if 10 ≤ n ∧ n ≤ 19 then 40 else 5, 0⟩) := by
  refine ⟨fun st wp => ⟨rfl, rfl, ?_, ?_⟩, gustTrace⟩
  · intro k hk
    rw [show (wxcalcwindgust st wp).1.waidx = (st.waidx + 1) &&& (st.walen - 1) from rfl,
      hk, Nat.and_pow_two_sub_one_eq_mod]
  · intro hpos
    exact scan_firstMax
      (fun i => (((((st.waidx + 1) &&& (st.walen - 1)) + (st.walen - st.tenmin))
        &&& (st.walen - 1)) + i) &&& (st.walen - 1))
      (fun j => (st.warr.set st.waidx wp).getD j ⟨0, 0⟩)
      st.tenmin hpos

/-- Claim C6 witness: a first call carrying speed 5 has a positive
window and returns its earliest maximum. -/
theorem C6_witness :
    (∃ w ∈ windowOf (wxcalcwindgust (initGust 62) ⟨5, 0⟩).1, 0 < w.speed) ∧
    (∃ v, (wxcalcwindgust (initGust 62) ⟨5, 0⟩).2 = some v ∧
      firstMaxProp (windowOf (wxcalcwindgust (initGust 62) ⟨5, 0⟩).1) v) :=
  ⟨by decide, (C6_amended.1 (initGust 62) ⟨5, 0⟩).2.2.2 (by decide)⟩
